import Mathlib

/-!
Verification of the FitnessTracker client's derived-arithmetic logic
("Metrics Engine"): per-portion nutrient scaling, BMI classification and
goal-relative progress, as implemented in the screens
`src/frontend/app/(tabs)/food.tsx`, `src/frontend/app/(tabs)/water.tsx`
and the Dashboard screen.

JavaScript numbers are modelled as exact rationals; a possibly-NaN value
(the result of `parseFloat` on unparsable text) is `Option ℚ` with `none`
playing the role of NaN, and an optional/undefined field from a JSON
payload is likewise `Option ℚ` with `none` for `undefined`.
-/

/-- A JavaScript numeric value that may be NaN: `none` stands for NaN. -/
abbrev JNum := Option ℚ

/-- Multiplication of a known number by a possibly-NaN value; NaN propagates. -/
def jmulC (a : ℚ) (b : JNum) : JNum := b.map (fun x => a * x)

/-- Division of a possibly-NaN value by a nonzero constant; NaN propagates. -/
def jdivC (a : JNum) (c : ℚ) : JNum := a.map (fun x => x / c)

/-- Numeric value of a decimal digit character, `none` otherwise. -/
def digToNat (c : Char) : Option ℕ :=
  if '0' ≤ c ∧ c ≤ '9' then some (c.toNat - 48) else none

/-- Accumulate a digit string into a natural number; `none` on a non-digit. -/
def parseNatAux : ℕ → List Char → Option ℕ
  | acc, [] => some acc
  | acc, c :: cs =>
    match digToNat c with
    | some d => parseNatAux (acc * 10 + d) cs
    | none => none

/-- Parse a nonempty all-digit string. -/
def parseNatDigits : List Char → Option ℕ
  | [] => none
  | cs => parseNatAux 0 cs

/-- Parse an unsigned decimal numeral `digits` or `digits.digits` as a rational. -/
def parseUnsignedQ (cs : List Char) : Option ℚ :=
  match cs.span (fun c => c ≠ '.') with
  | (intPart, []) => (parseNatDigits intPart).map (fun n => (n : ℚ))
  | (intPart, _ :: fracPart) =>
    match parseNatDigits intPart, parseNatDigits fracPart with
    | some i, some f => some ((i : ℚ) + (f : ℚ) / ((10 : ℚ) ^ fracPart.length))
    | _, _ => none

/-- Model of JavaScript `parseFloat` on plain decimal numerals: an optional
sign followed by digits with an optional fractional part; `none` models the
NaN result on unparsable input. -/
def parseFloatQ (s : String) : Option ℚ :=
  match s.toList with
  | '-' :: cs => (parseUnsignedQ cs).map (fun q => -q)
  | '+' :: cs => parseUnsignedQ cs
  | cs => parseUnsignedQ cs

/-- Per-100g food reference data, as served by `/api/food-database`
(food.tsx uses `name`, `kcal_per_100g`, `proteins_per_100g`,
`carbs_per_100g`, `fats_per_100g`). -/
structure FoodRef where
  name : String
  kcal_per_100g : ℚ
  proteins_per_100g : ℚ
  carbs_per_100g : ℚ
  fats_per_100g : ℚ
deriving DecidableEq

/-- A logged food portion with derived nutrient totals.  Fields are `JNum`
because `handleAddFood` stores `parseFloat(grams)` and products with it
without checking for NaN. -/
structure FoodEntry where
  food_name : String
  grams : JNum
  kcal : JNum
  proteins : JNum
  carbs : JNum
  fats : JNum
deriving DecidableEq

/-- The pure scaling step of food.tsx `handleAddFood` lines 69-79:
`multiplier = grams / 100` and each nutrient field is the per-100g
reference field times the multiplier. -/
def scalePortion (food : FoodRef) (gramsNum : ℚ) : FoodEntry :=
  let multiplier := gramsNum / 100
  { food_name := food.name
    grams := some gramsNum
    kcal := some (food.kcal_per_100g * multiplier)
    proteins := some (food.proteins_per_100g * multiplier)
    carbs := some (food.carbs_per_100g * multiplier)
    fats := some (food.fats_per_100g * multiplier) }

/-- The portion with NaN numeric fields produced when `parseFloat(grams)`
is NaN: `multiplier` and every product with it are NaN. -/
def nanPortion (foodName : String) : FoodEntry :=
  { food_name := foodName, grams := none, kcal := none
    proteins := none, carbs := none, fats := none }

/-- food.tsx `handleAddFood` (lines 63-102), up to the backend POST: rejects
(alert, nothing logged, `none` here) exactly when no food is selected or the
grams text is the empty string (the only falsy string); otherwise parses the
grams text, scales the selected reference and appends the resulting entry to
the day's entries. -/
def handleAddFood (selectedFood : Option FoodRef) (grams : String)
    (todayEntries : List FoodEntry) : Option (List FoodEntry) :=
  match selectedFood with
  | none => none
  | some food =>
    if grams = "" then none
    else
      match parseFloatQ grams with
      | some gramsNum => some (todayEntries ++ [scalePortion food gramsNum])
      | none => some (todayEntries ++ [nanPortion food.name])

/-- The preview card of food.tsx (lines 223-251) recomputes each nutrient as
`per_100g * (parseFloat(grams) / 100)`; the kcal line (line 229). -/
def previewKcal (food : FoodRef) (grams : String) : JNum :=
  jmulC food.kcal_per_100g (jdivC (parseFloatQ grams) 100)

/-- The protein line of the preview card (food.tsx line 235). -/
def previewProteins (food : FoodRef) (grams : String) : JNum :=
  jmulC food.proteins_per_100g (jdivC (parseFloatQ grams) 100)

/-- The carbs line of the preview card (food.tsx line 241). -/
def previewCarbs (food : FoodRef) (grams : String) : JNum :=
  jmulC food.carbs_per_100g (jdivC (parseFloatQ grams) 100)

/-- The fats line of the preview card (food.tsx line 247). -/
def previewFats (food : FoodRef) (grams : String) : JNum :=
  jmulC food.fats_per_100g (jdivC (parseFloatQ grams) 100)

/-- A BMI category as returned by food.tsx `getBMICategory`: a display text
and a colour. -/
structure BMICategory where
  text : String
  color : String
deriving DecidableEq

/-- food.tsx lines 664-669: fixed-threshold BMI category lookup. -/
def getBMICategory (bmi : ℚ) : BMICategory :=
  if bmi < 18.5 then { text := "Underweight", color := "#FF9800" }
  else if bmi < 25 then { text := "Normal", color := "#4CAF50" }
  else if bmi < 30 then { text := "Overweight", color := "#FF9800" }
  else { text := "Obese", color := "#F44336" }

/-- The progress percentage of water.tsx lines 60-62 (and the Dashboard's
`calorieProgress` / `waterProgress`): `goal ? consumed / goal * 100 : 0`,
where the goal is `none` when the optional chain yields `undefined` and the
ternary takes the 0 branch exactly on falsy goals (`undefined` or 0). -/
def progress (consumed : ℚ) (goal : Option ℚ) : ℚ :=
  match goal with
  | none => 0
  | some g => if g = 0 then 0 else consumed / g * 100

/-- The bar-fill clamp `Math.min(p, 100)` of water.tsx line 76 and the
Dashboard's progress bars. -/
def clampedPercent (raw : ℚ) : ℚ := min raw 100

/-- The goal figure shown next to the progress number, water.tsx line 91 and
Dashboard line 158: `goal_ml || 2000`, i.e. 2000 for a falsy goal. -/
def displayedGoal (goal : Option ℚ) : ℚ :=
  match goal with
  | none => 2000
  | some g => if g = 0 then 2000 else g

/-- The Dashboard's Remaining figure (part_001 line 114):
`Math.max(0, (user?.daily_calorie_target || 0) - (dashboardData?.food?.total_kcal || 0))`. -/
def remainingDisplay (target totalKcal : Option ℚ) : ℚ :=
  max 0 (target.getD 0 - totalKcal.getD 0)

example : parseFloatQ "-50" = some (-50) := by decide
example : parseFloatQ "" = none := by decide
example : getBMICategory 24.9 = { text := "Normal", color := "#4CAF50" } := by
  norm_num [getBMICategory]

/-- C1: every nutrient field of a scaled portion is the corresponding
per-100g reference field multiplied by grams/100; in particular a reference
with `kcal_per_100g = 200` scaled by 50 grams yields `kcal = 100`. -/
theorem scalePortion_fields_linear (food : FoodRef) (g : ℚ) :
    (scalePortion food g).kcal = some (food.kcal_per_100g * g / 100) ∧
    (scalePortion food g).proteins = some (food.proteins_per_100g * g / 100) ∧
    (scalePortion food g).carbs = some (food.carbs_per_100g * g / 100) ∧
    (scalePortion food g).fats = some (food.fats_per_100g * g / 100) ∧
    (scalePortion (FoodRef.mk "ref" 200 10 20 8) 50).kcal = some 100 := by
  refine ⟨?_, ?_, ?_, ?_, ?_⟩ <;> simp [scalePortion] <;> ring_nf <;> norm_num

/-- C2: `getBMICategory` maps every positive bmi to exactly one of four
labels via the fixed non-overlapping thresholds bmi < 18.5 (Underweight),
18.5 ≤ bmi < 25 (Normal), 25 ≤ bmi < 30 (Overweight), 30 ≤ bmi (Obese);
classifying 24.9 yields Normal and classifying 25 yields Overweight. -/
theorem getBMICategory_partition (bmi : ℚ) (h : 0 < bmi) :
    ((getBMICategory bmi).text = "Underweight" ↔ bmi < 18.5) ∧
    ((getBMICategory bmi).text = "Normal" ↔ 18.5 ≤ bmi ∧ bmi < 25) ∧
    ((getBMICategory bmi).text = "Overweight" ↔ 25 ≤ bmi ∧ bmi < 30) ∧
    ((getBMICategory bmi).text = "Obese" ↔ 30 ≤ bmi) ∧
    ((getBMICategory bmi).text = "Underweight" ∨ (getBMICategory bmi).text = "Normal" ∨
      (getBMICategory bmi).text = "Overweight" ∨ (getBMICategory bmi).text = "Obese") ∧
    getBMICategory 24.9 = { text := "Normal", color := "#4CAF50" } ∧
    getBMICategory 25 = { text := "Overweight", color := "#FF9800" } := by
  refine ⟨?_, ?_, ?_, ?_, ?_, ?_, ?_⟩
  · unfold getBMICategory; split_ifs with h1 h2 h3 <;> simp_all <;> intros <;> linarith
  · unfold getBMICategory; split_ifs with h1 h2 h3 <;> simp_all <;> intros <;> linarith
  · unfold getBMICategory; split_ifs with h1 h2 h3 <;> simp_all <;> intros <;> linarith
  · unfold getBMICategory; split_ifs with h1 h2 h3 <;> simp_all <;> intros <;> linarith
  · unfold getBMICategory; split_ifs with h1 h2 h3 <;> simp_all
  · norm_num [getBMICategory]
  · norm_num [getBMICategory]

/-- C2 witness: the partition theorem applied at the concrete bmi 24.9. -/
theorem getBMICategory_partition_witness :
    ((getBMICategory 24.9).text = "Underweight" ↔ (24.9 : ℚ) < 18.5) ∧
    ((getBMICategory 24.9).text = "Normal" ↔ (18.5 : ℚ) ≤ 24.9 ∧ (24.9 : ℚ) < 25) ∧
    ((getBMICategory 24.9).text = "Overweight" ↔ (25 : ℚ) ≤ 24.9 ∧ (24.9 : ℚ) < 30) ∧
    ((getBMICategory 24.9).text = "Obese" ↔ (30 : ℚ) ≤ 24.9) ∧
    ((getBMICategory 24.9).text = "Underweight" ∨ (getBMICategory 24.9).text = "Normal" ∨
      (getBMICategory 24.9).text = "Overweight" ∨ (getBMICategory 24.9).text = "Obese") ∧
    getBMICategory 24.9 = { text := "Normal", color := "#4CAF50" } ∧
    getBMICategory 25 = { text := "Overweight", color := "#FF9800" } :=
  getBMICategory_partition 24.9 (by norm_num)

/-- C6 counterexample: at the non-positive bmi -5 the code does not fail
with an InvalidInput error; it returns the Underweight category label. -/
theorem getBMICategory_nonpos_cex :
    getBMICategory (-5) = { text := "Underweight", color := "#FF9800" } := by
  norm_num [getBMICategory]

/-- C6 amended: for every bmi ≤ 0, `getBMICategory` does not fail; it is
total and returns the Underweight category (since bmi < 18.5). -/
theorem getBMICategory_nonpos (bmi : ℚ) (h : bmi ≤ 0) :
    getBMICategory bmi = { text := "Underweight", color := "#FF9800" } := by
  have hb : bmi < 18.5 := lt_of_le_of_lt h (by norm_num)
  simp [getBMICategory, hb]

/-- C6 witness: the amended theorem applied at bmi 0. -/
theorem getBMICategory_nonpos_witness :
    getBMICategory 0 = { text := "Underweight", color := "#FF9800" } :=
  getBMICategory_nonpos 0 (by norm_num)

/-- C7: portion scaling is homogeneous in the gram quantity: scaling by
`g * k` multiplies every nutrient field of the portion for `g` by `k`. -/
theorem scalePortion_homogeneous (food : FoodRef) (g k : ℚ) :
    (scalePortion food (g * k)).kcal = jmulC k (scalePortion food g).kcal ∧
    (scalePortion food (g * k)).proteins = jmulC k (scalePortion food g).proteins ∧
    (scalePortion food (g * k)).carbs = jmulC k (scalePortion food g).carbs ∧
    (scalePortion food (g * k)).fats = jmulC k (scalePortion food g).fats := by
  refine ⟨?_, ?_, ?_, ?_⟩ <;> simp [scalePortion, jmulC] <;> ring

/-- C3 counterexample: at consumed = 500 and goal = -100 (a goal ≤ 0) the
progress computation does not return the safe default 0: the truthiness
guard catches only goal = 0 or an absent goal, so it computes
500 / (-100) × 100 = -500. -/
theorem progress_neg_goal_cex :
    progress 500 (some (-100)) = -500 ∧ progress 500 (some (-100)) ≠ 0 := by
  constructor <;> norm_num [progress]

/-- C3 amended: the progress computation is total: it returns
consumed/goal × 100 for every nonzero goal (negative goals included, with a
negative result), and returns 0, a safe default rather than a division
error, exactly when the goal is 0 or absent. -/
theorem progress_total (consumed g : ℚ) (hg : g ≠ 0) :
    progress consumed (some g) = consumed / g * 100 ∧
    progress consumed (some 0) = 0 ∧
    progress consumed none = 0 := by
  refine ⟨?_, ?_, rfl⟩ <;> simp [progress, hg]

/-- C3 witness: the amended totality theorem applied at consumed 1500 and
goal 2000. -/
theorem progress_total_witness :
    progress 1500 (some 2000) = 1500 / 2000 * 100 ∧
    progress 1500 (some 0) = 0 ∧
    progress 1500 none = 0 :=
  progress_total 1500 2000 (by norm_num)

/-- C4 counterexample: at consumed = -100 and goal = 200 the clamped
percentage is min(-50, 100) = -50, which lies outside [0, 100]. -/
theorem clamped_range_cex :
    clampedPercent (progress (-100) (some 200)) < 0 := by
  norm_num [clampedPercent, progress]

/-- C4 amended: the bar-fill value equals min(raw, 100); it is ≤ 100
always, and lies in [0, 100] whenever consumed ≥ 0 and the goal, if
present, is ≥ 0; the raw value is preserved unclamped:
progress 1500/2000 gives raw 75 and clamped 75, and progress 2500/2000
gives raw 125 and clamped 100. -/
theorem clamped_bounds (c : ℚ) (goal : Option ℚ) (hc : 0 ≤ c)
    (hg : ∀ g, goal = some g → 0 ≤ g) :
    clampedPercent (progress c goal) = min (progress c goal) 100 ∧
    0 ≤ clampedPercent (progress c goal) ∧
    clampedPercent (progress c goal) ≤ 100 ∧
    progress 1500 (some 2000) = 75 ∧
    clampedPercent (progress 1500 (some 2000)) = 75 ∧
    progress 2500 (some 2000) = 125 ∧
    clampedPercent (progress 2500 (some 2000)) = 100 := by
  have hraw : 0 ≤ progress c goal := by
    cases goal with
    | none => simp [progress]
    | some g =>
      rcases eq_or_ne g 0 with h0 | h0
      · simp [progress, h0]
      · have hg0 : 0 < g := lt_of_le_of_ne (hg g rfl) (Ne.symm h0)
        simp only [progress, h0, if_false]
        exact mul_nonneg (div_nonneg hc hg0.le) (by norm_num)
  refine ⟨rfl, le_min hraw (by norm_num), min_le_right _ _, ?_, ?_, ?_, ?_⟩ <;>
    norm_num [clampedPercent, progress]

/-- C4 witness: the amended clamping theorem applied at consumed 2500 and
goal 2000. -/
theorem clamped_bounds_witness :
    clampedPercent (progress 2500 (some 2000)) =
      min (progress 2500 (some 2000)) 100 ∧
    0 ≤ clampedPercent (progress 2500 (some 2000)) ∧
    clampedPercent (progress 2500 (some 2000)) ≤ 100 ∧
    progress 1500 (some 2000) = 75 ∧
    clampedPercent (progress 1500 (some 2000)) = 75 ∧
    progress 2500 (some 2000) = 125 ∧
    clampedPercent (progress 2500 (some 2000)) = 100 :=
  clamped_bounds 2500 (some 2000) (by norm_num)
    (by intro g h; injection h with h; subst h; norm_num)

/-- C5 counterexample: with a selected reference of 200 kcal per 100 g and
grams text "-50" (a grams ≤ 0 input), `handleAddFood` does not fail with an
InvalidInput error: it produces a portion with negative nutrient fields and
appends it to the day's log. -/
theorem handleAddFood_cex :
    handleAddFood (some (FoodRef.mk "Test" 200 10 20 8)) "-50" [] =
      some [FoodEntry.mk "Test" (some (-50)) (some (-100)) (some (-5))
        (some (-10)) (some (-4))] := by
  have hp : parseFloatQ "-50" = some (-50) := by decide
  simp [handleAddFood, hp, scalePortion]
  norm_num

/-- C5 amended: `handleAddFood` rejects (alerts and logs nothing) exactly
when no food is selected or the grams text is empty; any other parsable
grams value, including values ≤ 0, yields a portion scaled by grams/100
that is appended to the log. -/
theorem handleAddFood_validation (sf : Option FoodRef) (g : String)
    (es : List FoodEntry) (food : FoodRef) (q : ℚ)
    (hne : g ≠ "") (hp : parseFloatQ g = some q) :
    (handleAddFood sf g es = none ↔ sf = none ∨ g = "") ∧
    handleAddFood (some food) g es = some (es ++ [scalePortion food q]) := by
  constructor
  · cases sf with
    | none => simp [handleAddFood]
    | some f => simp [handleAddFood, hne, hp]
  · simp [handleAddFood, hne, hp]

/-- C5 witness: the amended validation theorem applied to a concrete
reference, the grams text "-50" and an empty day log. -/
theorem handleAddFood_validation_witness :
    (handleAddFood (some (FoodRef.mk "Apple" 52 1 14 1)) "-50" [] = none ↔
      some (FoodRef.mk "Apple" 52 1 14 1) = none ∨ ("-50" : String) = "") ∧
    handleAddFood (some (FoodRef.mk "Apple" 52 1 14 1)) "-50" [] =
      some ([] ++ [scalePortion (FoodRef.mk "Apple" 52 1 14 1) (-50)]) :=
  handleAddFood_validation (some (FoodRef.mk "Apple" 52 1 14 1)) "-50" []
    (FoodRef.mk "Apple" 52 1 14 1) (-50) (by decide) (by decide)

/-- C8: the scaling computation is deterministic and mutates nothing
outside its own result: for any selected reference and non-empty grams
text, `handleAddFood` leaves every previously logged entry unchanged and
appends exactly one new entry, whose nutrient fields coincide with the
values the preview card computes independently from the same inputs. -/
theorem metrics_stateless (food : FoodRef) (g : String) (es : List FoodEntry)
    (hne : g ≠ "") :
    ∃ e, handleAddFood (some food) g es = some (es ++ [e]) ∧
      e.kcal = previewKcal food g ∧ e.proteins = previewProteins food g ∧
      e.carbs = previewCarbs food g ∧ e.fats = previewFats food g := by
  cases hq : parseFloatQ g with
  | none =>
    refine ⟨nanPortion food.name, ?_, ?_, ?_, ?_, ?_⟩ <;>
      simp [handleAddFood, hne, hq, nanPortion, previewKcal, previewProteins,
        previewCarbs, previewFats, jmulC, jdivC]
  | some q =>
    refine ⟨scalePortion food q, ?_, ?_, ?_, ?_, ?_⟩ <;>
      simp [handleAddFood, hne, hq, scalePortion, previewKcal, previewProteins,
        previewCarbs, previewFats, jmulC, jdivC]

/-- C8 witness: the determinism theorem applied to a concrete reference,
the grams text "50" and an empty day log. -/
theorem metrics_stateless_witness :
    ∃ e, handleAddFood (some (FoodRef.mk "Test" 200 10 20 8)) "50" [] =
        some ([] ++ [e]) ∧
      e.kcal = previewKcal (FoodRef.mk "Test" 200 10 20 8) "50" ∧
      e.proteins = previewProteins (FoodRef.mk "Test" 200 10 20 8) "50" ∧
      e.carbs = previewCarbs (FoodRef.mk "Test" 200 10 20 8) "50" ∧
      e.fats = previewFats (FoodRef.mk "Test" 200 10 20 8) "50" :=
  metrics_stateless (FoodRef.mk "Test" 200 10 20 8) "50" [] (by decide)

/-- C9: the Dashboard's Remaining figure equals
max(0, daily_calorie_target − total_kcal) with an absent target or total
treated as 0, and is therefore never negative, even when consumption
exceeds the target (2500 consumed against a 2000 target shows 0). -/
theorem remaining_nonneg (target totalKcal : Option ℚ) :
    remainingDisplay target totalKcal =
      max 0 (target.getD 0 - totalKcal.getD 0) ∧
    0 ≤ remainingDisplay target totalKcal ∧
    remainingDisplay (some 2000) (some 2500) = 0 := by
  refine ⟨rfl, le_max_left 0 _, ?_⟩
  norm_num [remainingDisplay]

/-- C10: when the water goal is absent or equals 0, the screens display the
default goal of 2000 ml while the computed progress is 0, which for any
nonzero consumption differs from consumed / 2000 × 100: the displayed
percentage does not correspond to the displayed goal. -/
theorem water_goal_default_mismatch (c : ℚ) (hc : c ≠ 0) :
    displayedGoal none = 2000 ∧ displayedGoal (some 0) = 2000 ∧
    progress c none = 0 ∧ progress c (some 0) = 0 ∧
    progress c none ≠ c / 2000 * 100 ∧
    progress c (some 0) ≠ c / 2000 * 100 := by
  refine ⟨rfl, by simp [displayedGoal], rfl, by simp [progress], ?_, ?_⟩ <;>
    simp [progress, mul_eq_zero, div_eq_zero_iff, eq_comm, hc] <;>
    exact fun h => hc (by linarith)

/-- C10 witness: the mismatch theorem applied at consumed 500 ml. -/
theorem water_goal_default_mismatch_witness :
    displayedGoal none = 2000 ∧ displayedGoal (some 0) = 2000 ∧
    progress 500 none = 0 ∧ progress 500 (some 0) = 0 ∧
    progress 500 none ≠ 500 / 2000 * 100 ∧
    progress 500 (some 0) ≠ 500 / 2000 * 100 :=
  water_goal_default_mismatch 500 (by norm_num)
